import Mathlib

/-!
Verification of the worker-pool orchestrator in `lib/pool.js` (class `WorkerPool`).

Shallow embedding notes:
* JavaScript numbers relevant here are integers or `NaN` (`Math.max` with an
  `undefined` argument yields `NaN`), modelled by `JSNum`.
* Configuration objects are heap-allocated values identified by a `Nat`
  reference; the `WeakMap` options cache is an association list keyed by that
  reference (object identity, not structural equality).
* The `workerpool` executor, the `serialize-javascript` serializer and the
  result deserializer are external collaborators and enter as function
  parameters; a ghost counter `serCalls` records serializer invocations.
-/

namespace WorkerPoolModel

/-- A JavaScript number as it occurs in the pool code: an integer, or `NaN`
(produced e.g. by `Math.max(1, undefined)`). -/
inductive JSNum
  | int (n : Int)
  | nan
  deriving DecidableEq, Repr

/-- `ToNumber` coercion of an optional field: an absent field reads as
`undefined`, which coerces to `NaN`. -/
def toNumber : Option JSNum → JSNum
  | some v => v
  | none => JSNum.nan

/-- `Math.max` on two arguments: `NaN` if either argument is `NaN`, else the
maximum. -/
def jsMax : JSNum → JSNum → JSNum
  | JSNum.int a, JSNum.int b => JSNum.int (max a b)
  | _, _ => JSNum.nan

/-- Whether a JS number is at least the integer `b`; `NaN` compares false. -/
def jsGe : JSNum → Int → Bool
  | JSNum.int n, b => b ≤ n
  | JSNum.nan, _ => false

/-- A JavaScript value in positions where the pool code inspects one
(the `filepath` argument of `run`). -/
inductive JSVal
  | undef
  | nullv
  | boolean (b : Bool)
  | number (n : JSNum)
  | str (s : String)
  | objRef (id : Nat)
  deriving DecidableEq, Repr

/-- JavaScript truthiness, as tested by `!filepath`. -/
def truthy : JSVal → Bool
  | JSVal.undef => false
  | JSVal.nullv => false
  | JSVal.boolean b => b
  | JSVal.number (JSNum.int n) => n != 0
  | JSVal.number JSNum.nan => false
  | JSVal.str s => s != ""
  | JSVal.objRef _ => true

/-- `typeof v === 'string'`. -/
def isString : JSVal → Bool
  | JSVal.str _ => true
  | _ => false

/-- The string payload of a string value (only read on the validated path). -/
def jsToString : JSVal → String
  | JSVal.str s => s
  | _ => ""

/-- The guard of `WorkerPool#run`: the body proceeds only when
`!(!filepath || typeof filepath !== 'string')`. -/
def validFilepath (fp : JSVal) : Bool :=
  truthy fp && isString fp

/-- A pool configuration object. `workerType`, `forkOpts` (its `execArgv`
flags) and `maxWorkers` are the fields the code names; `extra` stands for any
further own properties of the caller's object, which `Object.assign` copies
verbatim. An absent field is `none`. -/
structure PoolOpts where
  workerType : Option String := none
  forkOpts : Option (List String) := none
  maxWorkers : Option JSNum := none
  extra : List (String × String) := []
  deriving DecidableEq, Repr

/-- `DEFAULT_MAX_WORKERS = CPU_COUNT - 1`; the CPU count is environmental and
enters as a parameter. -/
def DEFAULT_MAX_WORKERS (cpuCount : Int) : Int :=
  cpuCount - 1

/-- `WORKER_POOL_DEFAULT_OPTS`: worker type `process`, the parent's
`execArgv`, and `DEFAULT_MAX_WORKERS`. -/
def WORKER_POOL_DEFAULT_OPTS (cpuCount : Int) (execArgv : List String) : PoolOpts :=
  { workerType := some "process"
    forkOpts := some execArgv
    maxWorkers := some (JSNum.int (DEFAULT_MAX_WORKERS cpuCount))
    extra := [] }

/-- The option resolution of `WorkerPool`'s constructor:
`const maxWorkers = Math.max(1, opts.maxWorkers)` followed by
`this.options = Object.assign(\x7b\x7d, opts, \x7bmaxWorkers\x7d)`. -/
def constructorOpts (opts : PoolOpts) : PoolOpts :=
  { opts with maxWorkers := some (jsMax (JSNum.int 1) (toNumber opts.maxWorkers)) }

/-- `WorkerPool.create(...args)` forwards to the constructor; with no
arguments the default parameter `opts = WORKER_POOL_DEFAULT_OPTS` applies. -/
def create (cpuCount : Int) (execArgv : List String) : Option PoolOpts → PoolOpts
  | some opts => constructorOpts opts
  | none => constructorOpts (WORKER_POOL_DEFAULT_OPTS cpuCount execArgv)

/-- Whether a resolved configuration's `maxWorkers` is a number that is at
least 1. -/
def maxWorkersGeOne (opts : PoolOpts) : Bool :=
  jsGe (toNumber opts.maxWorkers) 1

/-- The content of a configuration object: its own key/value pairs (opaque to
the pool, consumed only by the serializer). -/
abbrev Content := List (String × String)

/-- Errors observable from the pool. `invalidArgumentType` models the value of
`createInvalidArgumentTypeError`; `jsError` is an arbitrary thrown error
(e.g. one raised by the serializer), which the pool propagates unmodified. -/
inductive MochaError
  | invalidArgumentType (message : String) (argument : String) (expected : String)
  | jsError (message : String)
  deriving DecidableEq, Repr

/-- Modelled from the spec: `createInvalidArgumentTypeError` lives in
`lib/errors.js`, which is not among the sources here; per the spec the error
has kind `InvalidArgumentType` and carries the offending parameter name and
the expected type. -/
def createInvalidArgumentTypeError (message argument expected : String) : MochaError :=
  MochaError.invalidArgumentType message argument expected

/-- The serializer collaborator (`serialize-javascript` under the fixed
options `unsafe: true, ignoreFunction: true`): maps an object's content to its
serialized string, or throws. -/
abbrev SerFn := Content → Except MochaError String

/-- Mutable state surrounding `WorkerPool.serializeOptions`: the heap of
allocated configuration objects, the next fresh reference, the `WeakMap`
`optionsCache` (reference ↦ serialized string), and a ghost count of
serializer invocations. -/
structure PoolState where
  heap : List (Nat × Content)
  nextId : Nat
  cache : List (Nat × String)
  serCalls : Nat
  deriving DecidableEq, Repr

/-- Association-list lookup by key (the `has`/`get` of the `WeakMap`, and the
heap's dereference), first match wins. -/
def assocLookup {α : Type} (key : Nat) : List (Nat × α) → Option α
  | [] => none
  | (k, v) :: rest => if k = key then some v else assocLookup key rest

/-- The content of the object a reference designates. -/
def heapContent (s : PoolState) (ref : Nat) : Content :=
  (assocLookup ref s.heap).getD []

/-- Allocation of a fresh empty object, as performed by a defaulted
`opts = \x7b\x7d` / `options = \x7b\x7d` parameter on each call that omits the
argument. -/
def allocEmpty (s : PoolState) : Nat × PoolState :=
  (s.nextId,
   { s with heap := (s.nextId, []) :: s.heap, nextId := s.nextId + 1 })

/-- `WorkerPool.serializeOptions` applied to an already-allocated object
reference: on a cache hit return the stored string without invoking the
serializer; on a miss invoke the serializer, and on success store the pairing.
A serializer throw propagates before `optionsCache.set` runs, so the cache is
unchanged on that path. -/
def serializeOptionsRef (ser : SerFn) (s : PoolState) (ref : Nat) :
    Except MochaError String × PoolState :=
  match assocLookup ref s.cache with
  | some cached => (Except.ok cached, s)
  | none =>
      let s1 : PoolState := { s with serCalls := s.serCalls + 1 }
      match ser (heapContent s ref) with
      | Except.error e => (Except.error e, s1)
      | Except.ok serialized =>
          (Except.ok serialized, { s1 with cache := (ref, serialized) :: s1.cache })

/-- `WorkerPool.serializeOptions(opts = \x7b\x7d)`: an omitted argument
allocates a fresh empty object first. -/
def serializeOptions (ser : SerFn) (s : PoolState) :
    Option Nat → Except MochaError String × PoolState
  | some ref => serializeOptionsRef ser s ref
  | none =>
      let fresh := allocEmpty s
      serializeOptionsRef ser fresh.2 fresh.1

/-- `WorkerPool.resetOptionsCache()`: `optionsCache = new WeakMap()`. -/
def resetOptionsCache (s : PoolState) : PoolState :=
  { s with cache := [] }

/-- One task submission to the executor: `this._pool.exec(taskName, args)`. -/
structure ExecCall where
  taskName : String
  args : List String
  deriving DecidableEq, Repr

/-- Everything observable from one call to `WorkerPool#run`: its settled
result, the task submissions made to the executor, the raw results handed to
the deserializer, and the final state. -/
structure RunOutcome (ρ σ : Type) where
  result : Except MochaError σ
  execCalls : List ExecCall
  deserCalls : List ρ
  state : PoolState

/-- `WorkerPool#run(filepath, options = \x7b\x7d)`: the defaulted parameter
allocates a fresh object; an absent/empty/non-string `filepath` throws
`createInvalidArgumentTypeError('Expected a non-empty filepath', 'filepath',
'string')` before anything else; otherwise the options are serialized through
the cache, one task `exec('run', [filepath, serializedOptions])` is submitted,
and the executor's raw result is passed through `deserialize`. -/
def run {ρ σ : Type} (ser : SerFn) (execF : String → List String → ρ)
    (deser : ρ → σ) (s : PoolState) (filepath : JSVal) (options : Option Nat) :
    RunOutcome ρ σ :=
  let alloc := match options with
    | some ref => (ref, s)
    | none => allocEmpty s
  if validFilepath filepath then
    match serializeOptionsRef ser alloc.2 alloc.1 with
    | (Except.error e, s1) =>
        { result := Except.error e, execCalls := [], deserCalls := [], state := s1 }
    | (Except.ok serialized, s1) =>
        let fp := jsToString filepath
        let raw := execF "run" [fp, serialized]
        { result := Except.ok (deser raw)
          execCalls := [{ taskName := "run", args := [fp, serialized] }]
          deserCalls := [raw]
          state := s1 }
  else
    { result := Except.error (createInvalidArgumentTypeError
        "Expected a non-empty filepath" "filepath" "string")
      execCalls := []
      deserCalls := []
      state := alloc.2 }

/-- The executor's statistics snapshot
(`\x7btotalWorkers, busyWorkers, idleWorkers, pendingTasks\x7d`). -/
structure Stats where
  totalWorkers : Int
  busyWorkers : Int
  idleWorkers : Int
  pendingTasks : Int
  deriving DecidableEq, Repr

/-- `WorkerPool#stats()`: `return this._pool.stats()`, applied to the value
the executor's `stats` call produced. -/
def stats (poolStats : Stats) : Stats :=
  poolStats

/-- Well-formedness of a pool state: every cached reference was previously
allocated, i.e. is below the next fresh reference. Allocation and the cache
operations preserve this. -/
def wfState (s : PoolState) : Prop :=
  ∀ p ∈ s.cache, p.1 < s.nextId

instance (s : PoolState) : Decidable (wfState s) := by
  unfold wfState; infer_instance

/-! Theorems settling the claims. -/

/-- Claim C1, counterexample: a caller-supplied configuration that omits
`maxWorkers` is NOT resolved to a value of at least 1 — `Math.max(1,
undefined)` is `NaN`, so the constructed pool's `maxWorkers` is `NaN`, which
is not ≥ 1. -/
theorem C1_clamp_counterexample :
    (constructorOpts
        { workerType := none, forkOpts := none, maxWorkers := none,
          extra := [] }).maxWorkers = some JSNum.nan ∧
    maxWorkersGeOne (constructorOpts
        { workerType := none, forkOpts := none, maxWorkers := none,
          extra := [] }) = false :=
  ⟨rfl, rfl⟩

/-- Claim C1, amended: for every configuration whose `maxWorkers` field is
present and numeric, construction clamps it to `max 1 n`, so the resolved
`maxWorkers` is at least 1; and `create()` with no arguments never throws
(the model is total) and yields `maxWorkers` at least 1 for every CPU count.
A configuration that omits `maxWorkers` instead resolves it to `NaN`. -/
theorem C1_clamp_amended (opts : PoolOpts) (n : Int) (cpuCount : Int)
    (execArgv : List String) (h : opts.maxWorkers = some (JSNum.int n)) :
    (constructorOpts opts).maxWorkers = some (JSNum.int (max 1 n)) ∧
    maxWorkersGeOne (constructorOpts opts) = true ∧
    maxWorkersGeOne (create cpuCount execArgv none) = true := by
  refine ⟨?_, ?_, ?_⟩
  · simp [constructorOpts, h, toNumber, jsMax]
  · simp [constructorOpts, maxWorkersGeOne, h, toNumber, jsMax, jsGe]
  · simp [create, constructorOpts, WORKER_POOL_DEFAULT_OPTS, DEFAULT_MAX_WORKERS,
      maxWorkersGeOne, toNumber, jsMax, jsGe]

/-- Claim C1, witness for the amended theorem, at a configuration requesting
`maxWorkers = 0` and an 8-core CPU count. -/
theorem C1_clamp_amended_witness :
    ({ workerType := some "process", forkOpts := some [],
       maxWorkers := some (JSNum.int 0), extra := [] } : PoolOpts).maxWorkers
      = some (JSNum.int 0) ∧
    ((constructorOpts
        { workerType := some "process", forkOpts := some [],
          maxWorkers := some (JSNum.int 0), extra := [] }).maxWorkers
        = some (JSNum.int (max 1 0)) ∧
     maxWorkersGeOne (constructorOpts
        { workerType := some "process", forkOpts := some [],
          maxWorkers := some (JSNum.int 0), extra := [] }) = true ∧
     maxWorkersGeOne (create 8 [] none) = true) :=
  ⟨rfl, C1_clamp_amended _ 0 8 [] rfl⟩

/-- Claim C7: default construction (no caller-supplied configuration)
resolves `maxWorkers` to `max 1 (cpuCount - 1)` — the detected CPU core count
minus one, floored at 1 — and on an 8-core host this is 7. -/
theorem C7_default_max_workers (cpuCount : Int) (execArgv : List String) :
    (create cpuCount execArgv none).maxWorkers
      = some (JSNum.int (max 1 (DEFAULT_MAX_WORKERS cpuCount))) ∧
    (create 8 execArgv none).maxWorkers = some (JSNum.int 7) := by
  constructor
  · simp [create, constructorOpts, WORKER_POOL_DEFAULT_OPTS, toNumber, jsMax]
  · simp [create, constructorOpts, WORKER_POOL_DEFAULT_OPTS,
      DEFAULT_MAX_WORKERS, toNumber, jsMax]

/-- Claim C8: `stats()` returns exactly the statistics value produced by the
executor's stats call, with no transformation. -/
theorem C8_stats_passthrough (poolStats : Stats) : stats poolStats = poolStats :=
  rfl

/-- Claim C10: construction does not merge the defaults into a caller-supplied
configuration — the resolved options keep every field of the supplied object
(including absent `workerType`/`forkOpts`, which stay absent, and any extra
properties) and override only `maxWorkers`. -/
theorem C10_no_default_merge (opts : PoolOpts) :
    (constructorOpts opts).workerType = opts.workerType ∧
    (constructorOpts opts).forkOpts = opts.forkOpts ∧
    (constructorOpts opts).extra = opts.extra ∧
    (constructorOpts opts).maxWorkers
      = some (jsMax (JSNum.int 1) (toNumber opts.maxWorkers)) :=
  ⟨rfl, rfl, rfl, rfl⟩

/-- Claim C2: for every `filepath` that is not a non-empty string — absent,
`null`, a boolean, a number, an object, or the empty string — and every
options argument, serializer, executor and deserializer, `run` rejects with
the `InvalidArgumentType` error carrying parameter name `filepath` and
expected type `string`, and no task is ever submitted to the executor. -/
theorem C2_invalid_filepath_rejects {ρ σ : Type} (ser : SerFn)
    (execF : String → List String → ρ) (deser : ρ → σ) (s : PoolState)
    (fp : JSVal) (options : Option Nat)
    (h : ∀ str, fp = JSVal.str str → str = "") :
    (run ser execF deser s fp options).result
      = Except.error (createInvalidArgumentTypeError
          "Expected a non-empty filepath" "filepath" "string") ∧
    (run ser execF deser s fp options).execCalls = [] := by
  have hv : validFilepath fp = false := by
    cases fp with
    | str s0 =>
        have := h s0 rfl
        subst this
        rfl
    | undef => rfl
    | nullv => rfl
    | boolean b => simp [validFilepath, isString]
    | number n => simp [validFilepath, isString]
    | objRef id => rfl
  simp [run, hv]

/-- Claim C2, witness at `filepath = 123` (a number). -/
theorem C2_invalid_filepath_rejects_witness :
    (∀ str, JSVal.number (JSNum.int 123) = JSVal.str str → str = "") ∧
    ((run (fun _ => Except.ok "x") (fun name args => (name, args))
        (fun r => r) { heap := [], nextId := 0, cache := [], serCalls := 0 }
        (JSVal.number (JSNum.int 123)) none).result
      = Except.error (createInvalidArgumentTypeError
          "Expected a non-empty filepath" "filepath" "string") ∧
     (run (fun _ => Except.ok "x") (fun name args => (name, args))
        (fun r => r) { heap := [], nextId := 0, cache := [], serCalls := 0 }
        (JSVal.number (JSNum.int 123)) none).execCalls = []) :=
  ⟨fun _ h => JSVal.noConfusion h,
   C2_invalid_filepath_rejects _ _ _ _ _ _ (fun _ h => JSVal.noConfusion h)⟩

/-- Claim C4: for a valid non-empty string filepath and an options object
whose serialization succeeds, one call to `run` submits exactly one task to
the executor, named `run` with argument list `[filepath, serializedOptions]`;
the executor's raw result is handed to the deserializer exactly once, and the
deserializer's output is what `run` returns. -/
theorem C4_single_exec_single_deserialize {ρ σ : Type} (ser : SerFn)
    (execF : String → List String → ρ) (deser : ρ → σ) (s : PoolState)
    (fp : String) (o : Nat) (serialized : String)
    (hfp : fp ≠ "")
    (hser : (serializeOptionsRef ser s o).1 = Except.ok serialized) :
    (run ser execF deser s (JSVal.str fp) (some o)).execCalls
      = [{ taskName := "run", args := [fp, serialized] }] ∧
    (run ser execF deser s (JSVal.str fp) (some o)).deserCalls
      = [execF "run" [fp, serialized]] ∧
    (run ser execF deser s (JSVal.str fp) (some o)).result
      = Except.ok (deser (execF "run" [fp, serialized])) := by
  have hv : validFilepath (JSVal.str fp) = true := by
    simp [validFilepath, truthy, isString, hfp]
  rcases hres : serializeOptionsRef ser s o with ⟨r, s1⟩
  rw [hres] at hser
  simp only at hser
  subst hser
  simp [run, hv, hres, jsToString]

/-- Claim C4, witness: `run('file.js', \x7bfoo: 'bar'\x7d)` with a serializer
producing `\x7b"foo":"bar"\x7d` submits exactly the task
`exec("run", ["file.js", "\x7b\"foo\":\"bar\"\x7d"])`. -/
theorem C4_single_exec_single_deserialize_witness :
    ("file.js" ≠ "") ∧
    ((serializeOptionsRef (fun _ => Except.ok "\x7b\"foo\":\"bar\"\x7d")
        { heap := [(0, [("foo", "bar")])], nextId := 1, cache := [],
          serCalls := 0 } 0).1 = Except.ok "\x7b\"foo\":\"bar\"\x7d") ∧
    ((run (fun _ => Except.ok "\x7b\"foo\":\"bar\"\x7d")
        (fun name args => (name, args)) (fun r => r)
        { heap := [(0, [("foo", "bar")])], nextId := 1, cache := [],
          serCalls := 0 } (JSVal.str "file.js") (some 0)).execCalls
      = [{ taskName := "run", args := ["file.js", "\x7b\"foo\":\"bar\"\x7d"] }] ∧
     (run (fun _ => Except.ok "\x7b\"foo\":\"bar\"\x7d")
        (fun name args => (name, args)) (fun r => r)
        { heap := [(0, [("foo", "bar")])], nextId := 1, cache := [],
          serCalls := 0 } (JSVal.str "file.js") (some 0)).deserCalls
      = [("run", ["file.js", "\x7b\"foo\":\"bar\"\x7d"])] ∧
     (run (fun _ => Except.ok "\x7b\"foo\":\"bar\"\x7d")
        (fun name args => (name, args)) (fun r => r)
        { heap := [(0, [("foo", "bar")])], nextId := 1, cache := [],
          serCalls := 0 } (JSVal.str "file.js") (some 0)).result
      = Except.ok ("run", ["file.js", "\x7b\"foo\":\"bar\"\x7d"])) :=
  ⟨by decide,
   rfl,
   C4_single_exec_single_deserialize _ _ _ _ _ _ _ (by decide) rfl⟩

/-- A key below every allocated reference bound is absent from an association
list whose keys all lie below that bound. -/
theorem assocLookup_eq_none_of_lt {α : Type} (n : Nat) (l : List (Nat × α))
    (h : ∀ p ∈ l, p.1 < n) : assocLookup n l = none := by
  induction l with
  | nil => rfl
  | cons a rest ih =>
      obtain ⟨k, v⟩ := a
      have hk : k < n := h (k, v) (List.mem_cons_self _ _)
      have hne : k ≠ n := Nat.ne_of_lt hk
      simp only [assocLookup, hne, if_false]
      exact ih fun p hp => h p (List.mem_cons_of_mem _ hp)

/-- Claim C3: serializing the same object reference twice returns the
identical string both times and invokes the serializer exactly once — the
first (uncached) call serializes and stores, the second returns the cached
string without a further serializer invocation. -/
theorem C3_memoization_by_identity (ser : SerFn) (s : PoolState) (o : Nat)
    (str : String)
    (hmiss : assocLookup o s.cache = none)
    (hser : ser (heapContent s o) = Except.ok str) :
    (serializeOptionsRef ser s o).1 = Except.ok str ∧
    (serializeOptionsRef ser (serializeOptionsRef ser s o).2 o).1
      = Except.ok str ∧
    (serializeOptionsRef ser (serializeOptionsRef ser s o).2 o).2.serCalls
      = s.serCalls + 1 := by
  simp [serializeOptionsRef, hmiss, hser, assocLookup]

/-- Claim C3, witness at a fresh state holding one object. -/
theorem C3_memoization_by_identity_witness :
    (assocLookup 0
        ({ heap := [(0, [("foo", "bar")])], nextId := 1, cache := [],
           serCalls := 0 } : PoolState).cache = none) ∧
    (((fun _ => Except.ok "S") : SerFn) (heapContent
        { heap := [(0, [("foo", "bar")])], nextId := 1, cache := [],
          serCalls := 0 } 0) = Except.ok ("S" : String)) ∧
    ((serializeOptionsRef (fun _ => Except.ok "S")
        { heap := [(0, [("foo", "bar")])], nextId := 1, cache := [],
          serCalls := 0 } 0).1 = Except.ok "S" ∧
     (serializeOptionsRef (fun _ => Except.ok "S")
        (serializeOptionsRef (fun _ => Except.ok "S")
          { heap := [(0, [("foo", "bar")])], nextId := 1, cache := [],
            serCalls := 0 } 0).2 0).1 = Except.ok "S" ∧
     (serializeOptionsRef (fun _ => Except.ok "S")
        (serializeOptionsRef (fun _ => Except.ok "S")
          { heap := [(0, [("foo", "bar")])], nextId := 1, cache := [],
            serCalls := 0 } 0).2 0).2.serCalls = 0 + 1) :=
  ⟨rfl, rfl, C3_memoization_by_identity _ _ 0 "S" rfl rfl⟩

/-- Claim C5: when the serializer throws on an uncached object, the error
propagates to the caller of both `serializeOptions` and `run`, the cache
gains no entry, and a subsequent serialize call for the same reference
behaves as a first-time call: the serializer is invoked again and, on
success, the entry is created then. -/
theorem C5_serializer_error_uncached {ρ σ : Type} (ser ser2 : SerFn)
    (execF : String → List String → ρ) (deser : ρ → σ)
    (s : PoolState) (o : Nat) (e : MochaError) (str : String)
    (hmiss : assocLookup o s.cache = none)
    (hser : ser (heapContent s o) = Except.error e)
    (hser2 : ser2 (heapContent s o) = Except.ok str) :
    (serializeOptionsRef ser s o).1 = Except.error e ∧
    (serializeOptionsRef ser s o).2.cache = s.cache ∧
    (run ser execF deser s (JSVal.str "file.js") (some o)).result
      = Except.error e ∧
    (serializeOptionsRef ser2 (serializeOptionsRef ser s o).2 o).1
      = Except.ok str ∧
    (serializeOptionsRef ser2 (serializeOptionsRef ser s o).2 o).2.cache
      = (o, str) :: s.cache := by
  simp only [heapContent] at hser hser2
  simp [serializeOptionsRef, run, validFilepath, truthy, isString,
    heapContent, hmiss, hser, hser2]

/-- Claim C5, witness: a serializer that throws, then a succeeding one. -/
theorem C5_serializer_error_uncached_witness :
    (assocLookup 0
        ({ heap := [(0, [("foo", "bar")])], nextId := 1, cache := [],
           serCalls := 0 } : PoolState).cache = none) ∧
    (((fun _ => Except.error (MochaError.jsError "boom")) : SerFn) (heapContent
        { heap := [(0, [("foo", "bar")])], nextId := 1, cache := [],
          serCalls := 0 } 0) = Except.error (MochaError.jsError "boom")) ∧
    (((fun _ => Except.ok "S") : SerFn) (heapContent
        { heap := [(0, [("foo", "bar")])], nextId := 1, cache := [],
          serCalls := 0 } 0) = Except.ok ("S" : String)) ∧
    ((serializeOptionsRef (fun _ => Except.error (MochaError.jsError "boom"))
        { heap := [(0, [("foo", "bar")])], nextId := 1, cache := [],
          serCalls := 0 } 0).1 = Except.error (MochaError.jsError "boom") ∧
     (serializeOptionsRef (fun _ => Except.error (MochaError.jsError "boom"))
        { heap := [(0, [("foo", "bar")])], nextId := 1, cache := [],
          serCalls := 0 } 0).2.cache = [] ∧
     (run (fun _ => Except.error (MochaError.jsError "boom"))
        (fun name args => (name, args)) (fun r => r)
        { heap := [(0, [("foo", "bar")])], nextId := 1, cache := [],
          serCalls := 0 } (JSVal.str "file.js") (some 0)).result
      = Except.error (MochaError.jsError "boom") ∧
     (serializeOptionsRef (fun _ => Except.ok "S")
        (serializeOptionsRef (fun _ => Except.error (MochaError.jsError "boom"))
          { heap := [(0, [("foo", "bar")])], nextId := 1, cache := [],
            serCalls := 0 } 0).2 0).1 = Except.ok "S" ∧
     (serializeOptionsRef (fun _ => Except.ok "S")
        (serializeOptionsRef (fun _ => Except.error (MochaError.jsError "boom"))
          { heap := [(0, [("foo", "bar")])], nextId := 1, cache := [],
            serCalls := 0 } 0).2 0).2.cache = [(0, "S")]) :=
  ⟨rfl, rfl, rfl,
   C5_serializer_error_uncached _ _ _ _ _ 0 (MochaError.jsError "boom") "S"
     rfl rfl rfl⟩

/-- Claim C6: for an object reference that is cached (a serialize call on it
returns the stored string with no serializer invocation), `resetOptionsCache`
truly clears the cache: a serialize call on that same reference afterwards
re-invokes the serializer, behaving as a first-time call. -/
theorem C6_reset_clears_cache (ser : SerFn) (s : PoolState) (o : Nat)
    (cached str : String)
    (hcached : assocLookup o s.cache = some cached)
    (hser : ser (heapContent s o) = Except.ok str) :
    (serializeOptionsRef ser s o).1 = Except.ok cached ∧
    (serializeOptionsRef ser s o).2.serCalls = s.serCalls ∧
    (serializeOptionsRef ser (resetOptionsCache s) o).1 = Except.ok str ∧
    (serializeOptionsRef ser (resetOptionsCache s) o).2.serCalls
      = s.serCalls + 1 := by
  simp only [heapContent] at hser
  simp [serializeOptionsRef, resetOptionsCache, assocLookup, heapContent,
    hcached, hser]

/-- Claim C6, witness at a state whose cache already holds the object. -/
theorem C6_reset_clears_cache_witness :
    (assocLookup 0
        ({ heap := [(0, [("foo", "bar")])], nextId := 1, cache := [(0, "old")],
           serCalls := 1 } : PoolState).cache = some "old") ∧
    (((fun _ => Except.ok "S") : SerFn) (heapContent
        { heap := [(0, [("foo", "bar")])], nextId := 1, cache := [(0, "old")],
          serCalls := 1 } 0) = Except.ok ("S" : String)) ∧
    ((serializeOptionsRef (fun _ => Except.ok "S")
        { heap := [(0, [("foo", "bar")])], nextId := 1, cache := [(0, "old")],
          serCalls := 1 } 0).1 = Except.ok "old" ∧
     (serializeOptionsRef (fun _ => Except.ok "S")
        { heap := [(0, [("foo", "bar")])], nextId := 1, cache := [(0, "old")],
          serCalls := 1 } 0).2.serCalls = 1 ∧
     (serializeOptionsRef (fun _ => Except.ok "S")
        (resetOptionsCache
          { heap := [(0, [("foo", "bar")])], nextId := 1, cache := [(0, "old")],
            serCalls := 1 }) 0).1 = Except.ok "S" ∧
     (serializeOptionsRef (fun _ => Except.ok "S")
        (resetOptionsCache
          { heap := [(0, [("foo", "bar")])], nextId := 1, cache := [(0, "old")],
            serCalls := 1 }) 0).2.serCalls = 1 + 1) :=
  ⟨rfl, rfl, C6_reset_clears_cache _ _ 0 "old" "S" rfl rfl⟩

/-- Claim C9: a call of `serializeOptions` or `run` that omits the options
argument allocates a fresh object reference, which (in any well-formed state)
cannot be in the cache: the serializer is invoked anew, the cache gains a new
entry keyed by the fresh reference, and well-formedness is preserved, so
every such call behaves the same way. -/
theorem C9_omitted_options_never_cached {ρ σ : Type} (ser : SerFn)
    (execF : String → List String → ρ) (deser : ρ → σ)
    (s : PoolState) (str : String)
    (hwf : wfState s) (hser : ser [] = Except.ok str) :
    (serializeOptions ser s none).1 = Except.ok str ∧
    (serializeOptions ser s none).2.serCalls = s.serCalls + 1 ∧
    (serializeOptions ser s none).2.cache = (s.nextId, str) :: s.cache ∧
    wfState (serializeOptions ser s none).2 ∧
    (run ser execF deser s (JSVal.str "file.js") none).state.serCalls
      = s.serCalls + 1 ∧
    (run ser execF deser s (JSVal.str "file.js") none).state.cache
      = (s.nextId, str) :: s.cache := by
  have hnone : assocLookup s.nextId s.cache = none :=
    assocLookup_eq_none_of_lt _ _ hwf
  have hkey : serializeOptionsRef ser (allocEmpty s).2 (allocEmpty s).1
      = (Except.ok str,
         { heap := (s.nextId, []) :: s.heap, nextId := s.nextId + 1,
           cache := (s.nextId, str) :: s.cache, serCalls := s.serCalls + 1 }) := by
    simp [allocEmpty, serializeOptionsRef, heapContent, assocLookup, hnone, hser]
  refine ⟨?_, ?_, ?_, ?_, ?_, ?_⟩
  · simp [serializeOptions, hkey]
  · simp [serializeOptions, hkey]
  · simp [serializeOptions, hkey]
  · simp only [serializeOptions, hkey]
    intro p hp
    rcases List.mem_cons.mp hp with h1 | h2
    · subst h1
      exact Nat.lt_succ_self _
    · exact Nat.lt_succ_of_lt (hwf p h2)
  · simp [run, validFilepath, truthy, isString, hkey]
  · simp [run, validFilepath, truthy, isString, hkey]

/-- Claim C9, witness at the empty initial state. -/
theorem C9_omitted_options_never_cached_witness :
    wfState { heap := [], nextId := 0, cache := [], serCalls := 0 } ∧
    (((fun _ => Except.ok "S") : SerFn) ([] : Content) = Except.ok ("S" : String)) ∧
    ((serializeOptions (fun _ => Except.ok "S")
        { heap := [], nextId := 0, cache := [], serCalls := 0 } none).1
      = Except.ok "S" ∧
     (serializeOptions (fun _ => Except.ok "S")
        { heap := [], nextId := 0, cache := [], serCalls := 0 } none).2.serCalls
      = 0 + 1 ∧
     (serializeOptions (fun _ => Except.ok "S")
        { heap := [], nextId := 0, cache := [], serCalls := 0 } none).2.cache
      = [(0, "S")] ∧
     wfState (serializeOptions (fun _ => Except.ok "S")
        { heap := [], nextId := 0, cache := [], serCalls := 0 } none).2 ∧
     (run (fun _ => Except.ok "S") (fun name args => (name, args)) (fun r => r)
        { heap := [], nextId := 0, cache := [], serCalls := 0 }
        (JSVal.str "file.js") none).state.serCalls = 0 + 1 ∧
     (run (fun _ => Except.ok "S") (fun name args => (name, args)) (fun r => r)
        { heap := [], nextId := 0, cache := [], serCalls := 0 }
        (JSVal.str "file.js") none).state.cache = [(0, "S")]) :=
  ⟨by decide, rfl,
   C9_omitted_options_never_cached _ _ _ _ "S" (by decide) rfl⟩

end WorkerPoolModel
